import Mathlib

/-!
Verification of `ALCARECO_estimation_overall_Run3_withMonitor_slim.py`.

The script queries the DAS catalog through the external executable
`dasgoclient`, lists datasets matching glob patterns, fetches per-dataset
size/event metadata, folds the metadata into per-group and per-year totals,
and prints a report.

Shallow embedding choices:
* A subprocess invocation of `dasgoclient` is an external input, modelled by
  `CallOutcome`: either a non-zero exit carrying the captured stderr text, or
  a zero exit whose standard output either parses to a JSON value or does not
  (`Option JVal`; `none` stands for text `json.loads` rejects).
* JSON values are `JVal`; Python `None` is `JVal.jnull` (as `json.loads`
  maps JSON `null` to `None`).
* Python exceptions are `PyExn`; a computation that may raise an uncaught
  exception returns `Except PyExn α`.
* `print` calls are modelled by a `List String` log returned alongside the
  result where a claim mentions printing.
* Python `defaultdict(int)` maps are insertion-ordered association lists
  `List (String × Int)`; `dget` is item lookup (default `0`), `dadd` is
  `m[k] += v`.
* Python float division in the reporter is modelled over `ℚ` (the operands
  are integers, so the real-number value is exact); `pyDiv` raises
  `ZeroDivisionError` on a zero denominator exactly as Python does.
-/

/-- Python exception kinds that the script can raise or catch. -/
inductive PyExn where
  | keyError
  | indexError
  | typeError
  | jsonDecodeError
  | zeroDivisionError
deriving DecidableEq, Repr

/-- The exception classes caught by the `except (KeyError, IndexError, TypeError)`
handlers in `get_datasets` and `get_dataset_info`. -/
def PyExn.caughtByShape : PyExn → Bool
  | .keyError => true
  | .indexError => true
  | .typeError => true
  | .jsonDecodeError => false
  | .zeroDivisionError => false

/-- JSON values as decoded by `json.loads`; `jnull` doubles as Python `None`. -/
inductive JVal where
  | jnull
  | jbool (b : Bool)
  | jnum (n : Int)
  | jstr (s : String)
  | jarr (xs : List JVal)
  | jobj (kvs : List (String × JVal))

/-- Python truthiness of a decoded JSON value (`if not data`). -/
def truthy : JVal → Bool
  | .jnull => false
  | .jbool b => b
  | .jnum n => n != 0
  | .jstr s => s != ""
  | .jarr xs => !xs.isEmpty
  | .jobj kvs => !kvs.isEmpty

/-- Python iteration `for x in v`: lists yield elements, strings yield
one-character strings, dicts yield their keys, other values raise
`TypeError`. -/
def pyIter : JVal → Except PyExn (List JVal)
  | .jarr xs => .ok xs
  | .jstr s => .ok (s.data.map (fun c => JVal.jstr (String.singleton c)))
  | .jobj kvs => .ok (kvs.map (fun p => JVal.jstr p.1))
  | _ => .error .typeError

/-- Python subscripting `v[k]` with a string key: dict lookup raises
`KeyError` when the key is absent; any non-dict raises `TypeError`
(string and list indices must be integers; other values are not
subscriptable). -/
def pySubscrStr (v : JVal) (k : String) : Except PyExn JVal :=
  match v with
  | .jobj kvs =>
    match kvs.find? (fun p => p.1 == k) with
    | some p => .ok p.2
    | none => .error .keyError
  | _ => .error .typeError

/-- Whether a JSON value is exactly the string `k` (Python `==` between a
string and a non-string is `False`). -/
def isStrEqTo (v : JVal) (k : String) : Bool :=
  match v with
  | .jstr s => s == k
  | _ => false

/-- Whether `needle` occurs as a contiguous run inside `hay`. -/
def listContains (needle : List Char) : List Char → Bool
  | [] => needle.isEmpty
  | c :: rest => needle.isPrefixOf (c :: rest) || listContains needle rest

/-- Python substring test `needle in hay` on strings. -/
def containsStr (hay needle : String) : Bool :=
  listContains needle.data hay.data

/-- Python membership `k in v` for a string `k`: key test on dicts,
substring test on strings, element test on lists, `TypeError` otherwise. -/
def pyHasKey (v : JVal) (k : String) : Except PyExn Bool :=
  match v with
  | .jobj kvs => .ok (kvs.any (fun p => p.1 == k))
  | .jstr s => .ok (containsStr s k)
  | .jarr xs => .ok (xs.any (fun x => isStrEqTo x k))
  | _ => .error .typeError

/-- Outcome of one `subprocess.run(['dasgoclient', '--query', q, '--json'], ...)`
invocation: non-zero exit with captured stderr, or zero exit whose captured
stdout either decodes to a JSON value or is not valid JSON (`none`). -/
inductive CallOutcome where
  | fail (stderr : String)
  | ok (parsed : Option JVal)

/-- The external world: what the `dasgoclient` subprocess does for each
query string. -/
def World : Type := String → CallOutcome

/-- `get_das_data(query)`: runs the client with `check=True`; a non-zero exit
raises `CalledProcessError`, which is caught, the stderr text is printed and
`None` is returned; on a zero exit the stdout is decoded by `json.loads`,
whose `JSONDecodeError` is not caught and propagates. Returns the printed
lines alongside the result. -/
def get_das_data (call : CallOutcome) : List String × Except PyExn JVal :=
  match call with
  | .fail err => ([s!"Error executing dasgoclient: {err}"], .ok .jnull)
  | .ok none => ([], .error .jsonDecodeError)
  | .ok (some v) => ([], .ok v)

/-- The filter string both `get_datasets` and `get_dataset_info` build:
`f"dataset dataset={x} instance=prod/global"`. -/
def queryOf (x : String) : String :=
  s!"dataset dataset={x} instance=prod/global"

/-- The inner loop of `get_datasets`: `for ds_info in ...: datasets.append(ds_info['name'])`. -/
def walkInfos (acc : List JVal) : List JVal → Except PyExn (List JVal)
  | [] => .ok acc
  | i :: rest =>
    match pySubscrStr i "name" with
    | .error e => .error e
    | .ok n => walkInfos (acc ++ [n]) rest

/-- The outer loop of `get_datasets`: `for entry in data: for ds_info in entry['dataset']: ...`. -/
def walkEntries (acc : List JVal) : List JVal → Except PyExn (List JVal)
  | [] => .ok acc
  | entry :: rest =>
    match pySubscrStr entry "dataset" with
    | .error e => .error e
    | .ok dsList =>
      match pyIter dsList with
      | .error e => .error e
      | .ok infos =>
        match walkInfos acc infos with
        | .error e => .error e
        | .ok acc2 => walkEntries acc2 rest

/-- The whole record walk of `get_datasets` over the decoded data value. -/
def walkData (data : JVal) : Except PyExn (List JVal) :=
  match pyIter data with
  | .error e => .error e
  | .ok entries => walkEntries [] entries

/-- `get_datasets(pattern)`: builds the filter string, calls the adapter,
returns `[]` when the data is falsy, then walks the records collecting
`name` fields; `KeyError`, `IndexError` and `TypeError` anywhere in the walk
are caught and turn the whole listing into `[]`. -/
def get_datasets (world : World) (pattern : String) : List String × Except PyExn (List JVal) :=
  let query := queryOf pattern
  let log0 := [s!"Executing query: {query}"]
  match get_das_data (world query) with
  | (log1, .error e) => (log0 ++ log1, .error e)
  | (log1, .ok data) =>
    if truthy data then
      match walkData data with
      | .error e =>
        if e.caughtByShape then
          (log0 ++ log1 ++ ["Error processing data"], .ok [])
        else
          (log0 ++ log1, .error e)
      | .ok names => (log0 ++ log1, .ok names)
    else
      (log0 ++ log1 ++ [s!"No data found for pattern {pattern}"], .ok [])

/-- What the Python function `get_dataset_info` returns: either a 2-tuple
(`return x, y` somewhere in the body) or the bare `None` a Python function
returns when control falls off the end of the body. -/
inductive FetchRet where
  | pair (size events : JVal)
  | bare

/-- The inner loop of `get_dataset_info`: scan `ds_info` objects for one
with both a `size` and an `nevents` key, evaluating the two membership
tests left to right. -/
def searchInfos : List JVal → Except PyExn (Option (JVal × JVal))
  | [] => .ok none
  | i :: rest =>
    match pyHasKey i "size" with
    | .error e => .error e
    | .ok false => searchInfos rest
    | .ok true =>
      match pyHasKey i "nevents" with
      | .error e => .error e
      | .ok false => searchInfos rest
      | .ok true =>
        match pySubscrStr i "size" with
        | .error e => .error e
        | .ok s =>
          match pySubscrStr i "nevents" with
          | .error e => .error e
          | .ok n => .ok (some (s, n))

/-- The outer loop of `get_dataset_info` over the decoded records; `some`
is the early `return dataset_size, num_events`, `none` means both loops
finished without returning. -/
def searchEntries : List JVal → Except PyExn (Option (JVal × JVal))
  | [] => .ok none
  | entry :: rest =>
    match pySubscrStr entry "dataset" with
    | .error e => .error e
    | .ok dsList =>
      match pyIter dsList with
      | .error e => .error e
      | .ok infos =>
        match searchInfos infos with
        | .error e => .error e
        | .ok (some p) => .ok (some p)
        | .ok none => searchEntries rest

/-- `get_dataset_info(dataset)`: builds the filter string, calls the adapter,
returns the tuple `(None, None)` when the data is falsy or when a
`KeyError`/`IndexError`/`TypeError` is caught during the scan, returns the
first `(size, nevents)` tuple found, and — when the scan finishes without a
match — falls off the end of the function, returning bare `None`. -/
def get_dataset_info (world : World) (dataset : String) : List String × Except PyExn FetchRet :=
  let query := queryOf dataset
  match get_das_data (world query) with
  | (log1, .error e) => (log1, .error e)
  | (log1, .ok data) =>
    if truthy data then
      match pyIter data with
      | .error e =>
        if e.caughtByShape then
          (log1 ++ ["Error processing data"], .ok (.pair .jnull .jnull))
        else
          (log1, .error e)
      | .ok entries =>
        match searchEntries entries with
        | .error e =>
          if e.caughtByShape then
            (log1 ++ ["Error processing data"], .ok (.pair .jnull .jnull))
          else
            (log1, .error e)
        | .ok (some p) => (log1, .ok (.pair p.1 p.2))
        | .ok none => (log1, .ok .bare)
    else
      (log1, .ok (.pair .jnull .jnull))

/-- Item lookup on a `defaultdict(int)`: `m[k]` is the stored value, or the
default `0` when the key is absent. -/
def dget (m : List (String × Int)) (k : String) : Int :=
  match m with
  | [] => 0
  | (k2, v) :: rest => if k2 = k then v else dget rest k

/-- `m[k] += v` on a `defaultdict(int)`: update the stored value in place,
or insert `0 + v` at the end (Python dicts preserve insertion order). -/
def dadd (m : List (String × Int)) (k : String) (v : Int) : List (String × Int) :=
  match m with
  | [] => [(k, v)]
  | (k2, v2) :: rest => if k2 = k then (k2, v2 + v) :: rest else (k2, v2) :: dadd rest k v

/-- Whether the key is present in the dict (Python `k in m.keys()`). -/
def hasKey (m : List (String × Int)) (k : String) : Bool :=
  m.any (fun p => p.1 == k)

/-- `sum(m.values())`. -/
def sumValues (m : List (String × Int)) : Int :=
  (m.map (fun p => p.2)).sum

/-- The `results` dictionary built by `process_datasets`. -/
structure Results where
  total_datasets : Int
  total_size : Int
  total_events : Int
  size_by_year : List (String × Int)
  count_by_year : List (String × Int)
deriving DecidableEq, Repr

/-- The initial `results` dictionary of `process_datasets`: zero totals and
empty `defaultdict(int)` year maps. -/
def initResults : Results :=
  { total_datasets := 0
    total_size := 0
    total_events := 0
    size_by_year := []
    count_by_year := [] }

/-- What one `get_dataset_info` call yields to `process_datasets`, metadata
abstracted to integers: a 2-tuple of size and event count (each possibly
`None`), or the bare `None` of the fall-through return, which makes the
caller's tuple unpacking `size, events = ...` raise `TypeError`. -/
inductive FetchResult where
  | pair (size events : Option Int)
  | bare
deriving DecidableEq, Repr

/-- The body of the dataset loop of `process_datasets` for a dataset whose
size and events are both non-`None`: bump the three totals, then test the
name for `'Run2022'`, `'Run2023'`, `'Run2024'` in order and update the
matching year bucket, if any. -/
def foldDataset (r : Results) (dataset : String) (size events : Int) : Results :=
  let r2 : Results :=
    { r with
      total_datasets := r.total_datasets + 1
      total_size := r.total_size + size
      total_events := r.total_events + events }
  if containsStr dataset "Run2022" then
    { r2 with
      size_by_year := dadd r2.size_by_year "2022" size
      count_by_year := dadd r2.count_by_year "2022" 1 }
  else if containsStr dataset "Run2023" then
    { r2 with
      size_by_year := dadd r2.size_by_year "2023" size
      count_by_year := dadd r2.count_by_year "2023" 1 }
  else if containsStr dataset "Run2024" then
    { r2 with
      size_by_year := dadd r2.size_by_year "2024" size
      count_by_year := dadd r2.count_by_year "2024" 1 }
  else
    r2

/-- One iteration of the dataset loop: `size, events = get_dataset_info(dataset)`
(unpacking a bare `None` raises `TypeError`, caught nowhere in
`process_datasets`), then `if size is not None and events is not None`. -/
def stepDataset (fetcher : String → FetchResult) (r : Results) (dataset : String) :
    Except PyExn Results :=
  match fetcher dataset with
  | .bare => .error .typeError
  | .pair size events =>
    match size, events with
    | some s, some e => .ok (foldDataset r dataset s e)
    | _, _ => .ok r

/-- The dataset loop of `process_datasets` over one pattern's listing. -/
def foldDatasets (fetcher : String → FetchResult) (r : Results) :
    List String → Except PyExn Results
  | [] => .ok r
  | d :: rest =>
    match stepDataset fetcher r d with
    | .error e => .error e
    | .ok r2 => foldDatasets fetcher r2 rest

/-- The pattern loop of `process_datasets`: `datasets = get_datasets(pattern)`
(whose uncaught exceptions propagate), then the dataset loop. -/
def foldPatterns (lister : String → Except PyExn (List String))
    (fetcher : String → FetchResult) (r : Results) :
    List String → Except PyExn Results
  | [] => .ok r
  | p :: rest =>
    match lister p with
    | .error e => .error e
    | .ok ds =>
      match foldDatasets fetcher r ds with
      | .error e => .error e
      | .ok r2 => foldPatterns lister fetcher r2 rest

/-- `process_datasets(group_name, patterns)`, with the two
external-call-dependent helpers abstracted as oracles: `lister` is
`get_datasets` (a listing of dataset names, or an uncaught exception) and
`fetcher` is `get_dataset_info` (see `FetchResult`). `group_name` only
labels the progress bar and does not affect the result. -/
def process_datasets (lister : String → Except PyExn (List String))
    (fetcher : String → FetchResult) (group_name : String) (patterns : List String) :
    Except PyExn Results :=
  let _ := group_name
  foldPatterns lister fetcher initResults patterns

/-- Float division as Python evaluates it: raises `ZeroDivisionError` on a
zero denominator. -/
def pyDiv (a b : ℚ) : Except PyExn ℚ :=
  if b = 0 then .error .zeroDivisionError else .ok (a / b)

/-- The arithmetic of the report block in `main`:
`total_size_tb = total_size / 1024**4`, then
`average_size_per_dataset_tb = total_size_tb / total_datasets if total_datasets > 0 else 0`
and `average_size_per_event_tb = total_size_tb / total_events if total_events > 0 else 0`
(the conditional expression evaluates the division only when the condition
holds). Returns `(total_size_tb, average per dataset, average per event)`. -/
def compute_averages (r : Results) : Except PyExn (ℚ × ℚ × ℚ) :=
  match pyDiv (r.total_size : ℚ) ((1024 : ℚ) ^ 4) with
  | .error e => .error e
  | .ok tb =>
    match (if r.total_datasets > 0 then pyDiv tb (r.total_datasets : ℚ) else .ok 0) with
    | .error e => .error e
    | .ok avgDataset =>
      match (if r.total_events > 0 then pyDiv tb (r.total_events : ℚ) else .ok 0) with
      | .error e => .error e
      | .ok avgEvent => .ok (tb, avgDataset, avgEvent)

/-- The per-year values the report loop in `main` reads for a year label:
`results['count_by_year'][year]` and `results['size_by_year'][year] / 1024**4`
(both reads on `defaultdict(int)`, so an absent year yields `0`). -/
def report_year_values (r : Results) (year : String) : Int × ℚ :=
  (dget r.count_by_year year, (dget r.size_by_year year : ℚ) / ((1024 : ℚ) ^ 4))

/-- Whether the fetcher yields a non-`None` size and a non-`None` event
count for the dataset, i.e. whether `process_datasets` counts it. -/
def isCounted (fetcher : String → FetchResult) (d : String) : Bool :=
  match fetcher d with
  | .pair (some _) (some _) => true
  | _ => false

/-- Whether the dataset name contains none of the three year tokens
`'Run2022'`, `'Run2023'`, `'Run2024'`. -/
def noYearToken (d : String) : Bool :=
  !containsStr d "Run2022" && !containsStr d "Run2023" && !containsStr d "Run2024"

/-- Among a listing, the number of datasets that are counted but whose
name matches no year token. -/
def unmatchedIn (fetcher : String → FetchResult) (ds : List String) : Nat :=
  (ds.filter (fun d => isCounted fetcher d && noYearToken d)).length

/-- Across all patterns of a group (with a lister that always succeeds),
the number of counted datasets whose name matches no year token. -/
def unmatchedCount (lister : String → List String) (fetcher : String → FetchResult)
    (patterns : List String) : Nat :=
  unmatchedIn fetcher (patterns.flatMap lister)

/-! ## Lemmas about the defaultdict operations -/

theorem sumValues_dadd (m : List (String × Int)) (k : String) (v : Int) :
    sumValues (dadd m k v) = sumValues m + v := by
  induction m with
  | nil => simp [dadd, sumValues]
  | cons p rest ih =>
    obtain ⟨k2, v2⟩ := p
    by_cases h : k2 = k
    · simp [dadd, h, sumValues]
      ring
    · simp only [dadd, if_neg h]
      simp only [sumValues, List.map_cons, List.sum_cons] at ih ⊢
      omega

theorem dget_dadd_ne (m : List (String × Int)) (k y : String) (v : Int) (h : k ≠ y) :
    dget (dadd m k v) y = dget m y := by
  induction m with
  | nil =>
    simp only [dadd, dget]
    rw [if_neg h]
  | cons p rest ih =>
    obtain ⟨k2, v2⟩ := p
    by_cases h2 : k2 = k
    · subst h2
      simp [dadd, dget, h]
    · simp [dadd, dget, h2, ih]

theorem hasKey_dadd_ne (m : List (String × Int)) (k y : String) (v : Int) (h : k ≠ y) :
    hasKey (dadd m k v) y = hasKey m y := by
  induction m with
  | nil =>
    simp [dadd, hasKey]
    exact h
  | cons p rest ih =>
    obtain ⟨k2, v2⟩ := p
    by_cases h2 : k2 = k
    · subst h2
      simp [dadd, hasKey, h]
    · simp only [dadd, if_neg h2, hasKey, List.any_cons] at ih ⊢
      rw [ih]

/-! ## Lemmas about one fold step -/

theorem foldDataset_total (r : Results) (d : String) (s e : Int) :
    (foldDataset r d s e).total_datasets = r.total_datasets + 1 := by
  unfold foldDataset
  split_ifs <;> rfl

theorem foldDataset_sumCounts (r : Results) (d : String) (s e : Int) :
    sumValues (foldDataset r d s e).count_by_year
      = sumValues r.count_by_year + (if noYearToken d then 0 else 1) := by
  unfold foldDataset noYearToken
  cases h1 : containsStr d "Run2022" with
  | true => simp [h1, sumValues_dadd]
  | false =>
    cases h2 : containsStr d "Run2023" with
    | true => simp [h1, h2, sumValues_dadd]
    | false =>
      cases h3 : containsStr d "Run2024" with
      | true => simp [h1, h2, h3, sumValues_dadd]
      | false => simp [h1, h2, h3]

/-! ## Claim theorems -/

/-- C1: evaluation of `get_dataset_info` at the failing input. On a non-empty
adapter result in which no record's dataset entry has both a `size` and an
`nevents` field, the function falls off the end of its body and returns the
bare `None` of `FetchRet.bare` — not the tuple `(None, None)` the claim
states (so the caller's tuple unpacking would raise `TypeError`). On a
result that does contain such an entry, it returns the size and event count
of the first matching record without examining later records. -/
theorem get_dataset_info_no_match_returns_bare_none :
    (get_dataset_info
        (fun _ => .ok (some (.jarr [.jobj [("dataset",
          .jarr [.jobj [("name", .jstr "/X/Run2022A/ALCARECO")]])]])))
        "/X/Run2022A/ALCARECO").2
      = .ok .bare
    ∧ (get_dataset_info
        (fun _ => .ok (some (.jarr [
          .jobj [("dataset", .jarr [.jobj [("name", .jstr "/X"),
            ("size", .jnum 5), ("nevents", .jnum 7)]])],
          .jobj [("dataset", .jarr [.jobj [("name", .jstr "/Y"),
            ("size", .jnum 11), ("nevents", .jnum 13)]])]])))
        "/X").2
      = .ok (.pair (.jnum 5) (.jnum 7)) :=
  ⟨rfl, rfl⟩

/-- C2: end-to-end scenario A. One group with one pattern, the Lister yields
`"/A/Run2022X/ALCARECO"` and `"/B/Run2023Y/ALCARECO"`, the Fetcher yields
`(100, 10)` and `(200, 20)` respectively; `process_datasets` returns
`total_datasets = 2`, `total_size = 300`, `total_events = 30`,
`count_by_year = {"2022": 1, "2023": 1}` and
`size_by_year = {"2022": 100, "2023": 200}`. -/
theorem process_datasets_scenario_A :
    process_datasets
      (fun _ => .ok ["/A/Run2022X/ALCARECO", "/B/Run2023Y/ALCARECO"])
      (fun d =>
        if d = "/A/Run2022X/ALCARECO" then .pair (some 100) (some 10)
        else if d = "/B/Run2023Y/ALCARECO" then .pair (some 200) (some 20)
        else .pair none none)
      "G" ["/pattern"]
      = .ok { total_datasets := 2
              total_size := 300
              total_events := 30
              size_by_year := [("2022", 100), ("2023", 200)]
              count_by_year := [("2022", 1), ("2023", 1)] } := by
  rfl

/-- C8: on a zero-exit invocation whose standard output is not valid JSON,
`get_das_data` does not catch the parse failure: the `JSONDecodeError`
propagates as an uncaught exception instead of being converted to `None` or
an empty result (and nothing is printed). -/
theorem get_das_data_propagates_decode_error :
    get_das_data (.ok none) = ([], .error .jsonDecodeError) :=
  rfl

/-- C9: `process_datasets` is a deterministic pure function of its inputs:
with the external calls held constant (two listers and two fetchers that
agree pointwise), two runs — even under different group names — yield
identical aggregate results. -/
theorem process_datasets_deterministic
    (L1 L2 : String → Except PyExn (List String)) (F1 F2 : String → FetchResult)
    (g1 g2 : String) (pats : List String)
    (hL : ∀ p, L1 p = L2 p) (hF : ∀ d, F1 d = F2 d) :
    process_datasets L1 F1 g1 pats = process_datasets L2 F2 g2 pats := by
  have h1 : L1 = L2 := funext hL
  have h2 : F1 = F2 := funext hF
  subst h1
  subst h2
  rfl

/-- Witness for C9 at concrete oracles and two different group names. -/
theorem process_datasets_deterministic_witness :
    process_datasets (fun _ => .ok ["/A/Run2022X/ALCARECO"])
        (fun _ => .pair (some 1) (some 2)) "PPS" ["/p"]
      = process_datasets (fun _ => .ok ["/A/Run2022X/ALCARECO"])
        (fun _ => .pair (some 1) (some 2)) "TkAl" ["/p"] :=
  process_datasets_deterministic _ _ _ _ "PPS" "TkAl" ["/p"]
    (fun _ => rfl) (fun _ => rfl)

/-- C6: for a counted dataset (size and events both non-`None`), the
aggregation step tests the name for `'Run2022'`, then `'Run2023'`, then
`'Run2024'`, in that order; on the first match it adds the size to
`size_by_year` for that year and increments `count_by_year` for that year,
a name matching none leaves both year maps unchanged, and no key outside
the three recognized years is ever touched. -/
theorem stepDataset_year_bucketing_order (F : String → FetchResult) (r : Results)
    (d : String) (s e : Int) (hF : F d = .pair (some s) (some e)) :
    stepDataset F r d = .ok (foldDataset r d s e)
    ∧ (containsStr d "Run2022" = true →
        (foldDataset r d s e).size_by_year = dadd r.size_by_year "2022" s
        ∧ (foldDataset r d s e).count_by_year = dadd r.count_by_year "2022" 1)
    ∧ (containsStr d "Run2022" = false → containsStr d "Run2023" = true →
        (foldDataset r d s e).size_by_year = dadd r.size_by_year "2023" s
        ∧ (foldDataset r d s e).count_by_year = dadd r.count_by_year "2023" 1)
    ∧ (containsStr d "Run2022" = false → containsStr d "Run2023" = false →
        containsStr d "Run2024" = true →
        (foldDataset r d s e).size_by_year = dadd r.size_by_year "2024" s
        ∧ (foldDataset r d s e).count_by_year = dadd r.count_by_year "2024" 1)
    ∧ (containsStr d "Run2022" = false → containsStr d "Run2023" = false →
        containsStr d "Run2024" = false →
        (foldDataset r d s e).size_by_year = r.size_by_year
        ∧ (foldDataset r d s e).count_by_year = r.count_by_year)
    ∧ (∀ y, y ≠ "2022" → y ≠ "2023" → y ≠ "2024" →
        dget (foldDataset r d s e).size_by_year y = dget r.size_by_year y
        ∧ dget (foldDataset r d s e).count_by_year y = dget r.count_by_year y) := by
  refine ⟨by simp [stepDataset, hF], ?_, ?_, ?_, ?_, ?_⟩
  · intro h1
    simp [foldDataset, h1]
  · intro h1 h2
    simp [foldDataset, h1, h2]
  · intro h1 h2 h3
    simp [foldDataset, h1, h2, h3]
  · intro h1 h2 h3
    simp [foldDataset, h1, h2, h3]
  · intro y hy1 hy2 hy3
    cases h1 : containsStr d "Run2022" with
    | true =>
      simp [foldDataset, h1, dget_dadd_ne _ _ _ _ (Ne.symm hy1)]
    | false =>
      cases h2 : containsStr d "Run2023" with
      | true =>
        simp [foldDataset, h1, h2, dget_dadd_ne _ _ _ _ (Ne.symm hy2)]
      | false =>
        cases h3 : containsStr d "Run2024" with
        | true =>
          simp [foldDataset, h1, h2, h3, dget_dadd_ne _ _ _ _ (Ne.symm hy3)]
        | false =>
          simp [foldDataset, h1, h2, h3]

/-- Witness for C6 at a concrete counted dataset whose name contains
exactly the token `'Run2023'`. -/
theorem stepDataset_year_bucketing_order_witness :
    stepDataset (fun _ => FetchResult.pair (some 5) (some 7)) initResults
        "/A/Run2023B/ALCARECO"
      = .ok (foldDataset initResults "/A/Run2023B/ALCARECO" 5 7) :=
  (stepDataset_year_bucketing_order (fun _ => FetchResult.pair (some 5) (some 7))
    initResults "/A/Run2023B/ALCARECO" 5 7 rfl).1

/-- C5: the report arithmetic in `main` computes `total_size_tb` as
`total_size / 1024 ^ 4`, the average size per dataset as
`total_size_tb / total_datasets` when `total_datasets > 0` and as `0`
otherwise, and the average size per event as `total_size_tb / total_events`
when `total_events > 0` and as `0` otherwise — and no division ever raises
`ZeroDivisionError`, for any aggregate result whatsoever. -/
theorem compute_averages_division_guarded (r : Results) :
    compute_averages r
      = .ok ((r.total_size : ℚ) / (1024 : ℚ) ^ 4,
          (if 0 < r.total_datasets then
            ((r.total_size : ℚ) / (1024 : ℚ) ^ 4) / (r.total_datasets : ℚ) else 0),
          (if 0 < r.total_events then
            ((r.total_size : ℚ) / (1024 : ℚ) ^ 4) / (r.total_events : ℚ) else 0)) := by
  have h4 : ((1024 : ℚ) ^ 4) ≠ 0 := by norm_num
  by_cases hd : 0 < r.total_datasets <;> by_cases he : 0 < r.total_events
  · have hdq : ((r.total_datasets : ℚ)) ≠ 0 := Int.cast_ne_zero.mpr (by omega)
    have heq : ((r.total_events : ℚ)) ≠ 0 := Int.cast_ne_zero.mpr (by omega)
    simp [compute_averages, pyDiv, h4, hd, he, hdq, heq]
  · have hdq : ((r.total_datasets : ℚ)) ≠ 0 := Int.cast_ne_zero.mpr (by omega)
    simp [compute_averages, pyDiv, h4, hd, he, hdq]
  · have heq : ((r.total_events : ℚ)) ≠ 0 := Int.cast_ne_zero.mpr (by omega)
    simp [compute_averages, pyDiv, h4, hd, he, heq]
  · simp [compute_averages, pyDiv, h4, hd, he]

/-- C4: whenever the decoded data is truthy but the record walk fails to
match the expected shape (a missing key, wrong type, or index error —
exactly the caught exception classes), `get_datasets` returns the empty
listing for that pattern, discarding any names collected from well-formed
earlier records of the same call. -/
theorem get_datasets_shape_error_returns_empty (world : World) (pattern : String)
    (v : JVal) (e : PyExn)
    (hw : world (queryOf pattern) = .ok (some v))
    (ht : truthy v = true)
    (hwalk : walkData v = .error e)
    (hc : e.caughtByShape = true) :
    (get_datasets world pattern).2 = .ok [] := by
  simp [get_datasets, hw, get_das_data, ht, hwalk, hc]

/-- Witness for C4: the first record is well-formed and yields a name, the
second lacks the `dataset` key; the whole listing degrades to `[]`. -/
theorem get_datasets_shape_error_returns_empty_witness :
    (get_datasets
        (fun _ => .ok (some (.jarr [
          .jobj [("dataset", .jarr [.jobj [("name", .jstr "/Good/Run2022A/ALCARECO")]])],
          .jobj [("other", .jnull)]])))
        "/p").2 = .ok [] :=
  get_datasets_shape_error_returns_empty _ "/p" _ PyExn.keyError rfl rfl rfl rfl

/-- C7: on a non-zero exit of the external client, `get_das_data` prints the
captured stderr and returns `None` without raising; `get_datasets` for a
pattern whose query fails that way returns the empty listing; and a group
whose every pattern lists no datasets aggregates to a result with every
total zero and both year maps empty — no exception escapes anywhere. -/
theorem subprocess_failure_degrades_to_empty_aggregate :
    (∀ err, get_das_data (.fail err)
        = ([s!"Error executing dasgoclient: {err}"], .ok .jnull))
    ∧ (∀ (world : World) (pattern err : String),
        world (queryOf pattern) = .fail err →
        (get_datasets world pattern).2 = .ok [])
    ∧ (∀ (F : String → FetchResult) (g : String) (pats : List String),
        process_datasets (fun _ => .ok []) F g pats
          = .ok { total_datasets := 0, total_size := 0, total_events := 0,
                  size_by_year := [], count_by_year := [] }) := by
  refine ⟨fun err => rfl, ?_, ?_⟩
  · intro world pattern err hw
    simp [get_datasets, hw, get_das_data, truthy]
  · intro F g pats
    show foldPatterns _ F initResults pats = _
    induction pats with
    | nil => rfl
    | cons p rest ih => exact ih

/-- Witness for C7: a world in which every query exits non-zero. -/
theorem subprocess_failure_degrades_to_empty_aggregate_witness :
    get_das_data (.fail "boom")
        = ([s!"Error executing dasgoclient: boom"], .ok .jnull)
    ∧ (get_datasets (fun _ => .fail "boom") "/p").2 = .ok []
    ∧ process_datasets (fun _ => .ok []) (fun _ => .bare) "PPS" ["/p", "/q"]
        = .ok { total_datasets := 0, total_size := 0, total_events := 0,
                size_by_year := [], count_by_year := [] } :=
  ⟨subprocess_failure_degrades_to_empty_aggregate.1 "boom",
   subprocess_failure_degrades_to_empty_aggregate.2.1 _ "/p" "boom" rfl,
   subprocess_failure_degrades_to_empty_aggregate.2.2 _ "PPS" ["/p", "/q"]⟩

/-! ## The counting invariant -/

theorem unmatchedIn_cons (F : String → FetchResult) (d : String) (ds : List String) :
    unmatchedIn F (d :: ds)
      = (if isCounted F d && noYearToken d then 1 else 0) + unmatchedIn F ds := by
  simp only [unmatchedIn, List.filter_cons]
  split_ifs <;> simp [Nat.add_comm]

theorem unmatchedIn_append (F : String → FetchResult) (a b : List String) :
    unmatchedIn F (a ++ b) = unmatchedIn F a + unmatchedIn F b := by
  simp [unmatchedIn, List.filter_append]

theorem foldDatasets_delta (F : String → FetchResult) :
    ∀ (ds : List String) (r r2 : Results), foldDatasets F r ds = .ok r2 →
      r2.total_datasets - sumValues r2.count_by_year
        = r.total_datasets - sumValues r.count_by_year + (unmatchedIn F ds : Int) := by
  intro ds
  induction ds with
  | nil =>
    intro r r2 h
    simp only [foldDatasets] at h
    cases h
    simp [unmatchedIn]
  | cons d rest ih =>
    intro r r2 h
    simp only [foldDatasets] at h
    cases hs : stepDataset F r d with
    | error e =>
      rw [hs] at h
      exact absurd h (by simp)
    | ok r3 =>
      rw [hs] at h
      simp only at h
      have hrec := ih r3 r2 h
      rw [unmatchedIn_cons]
      unfold stepDataset at hs
      cases hF : F d with
      | bare =>
        rw [hF] at hs
        exact absurd hs (by simp)
      | pair os oe =>
        rw [hF] at hs
        cases os with
        | none =>
          have hcf : isCounted F d = false := by simp [isCounted, hF]
          simp only at hs
          cases hs
          simp only [hcf, Bool.false_and, if_neg, Bool.false_eq_true, Nat.zero_add,
            ite_false]
          omega
        | some s =>
          cases oe with
          | none =>
            have hcf : isCounted F d = false := by simp [isCounted, hF]
            simp only at hs
            cases hs
            simp only [hcf, Bool.false_and, Bool.false_eq_true, Nat.zero_add, ite_false]
            omega
          | some e =>
            have hct : isCounted F d = true := by simp [isCounted, hF]
            simp only at hs
            cases hs
            have h1 := foldDataset_total r d s e
            have h2 := foldDataset_sumCounts r d s e
            simp only [hct, Bool.true_and]
            cases hn : noYearToken d with
            | true =>
              simp only [hn, ite_true, if_pos] at h2 ⊢
              push_cast
              omega
            | false =>
              simp only [hn, Bool.false_eq_true, ite_false] at h2 ⊢
              push_cast
              omega

theorem foldPatterns_delta (L : String → List String) (F : String → FetchResult) :
    ∀ (pats : List String) (r r2 : Results),
      foldPatterns (fun p => .ok (L p)) F r pats = .ok r2 →
      r2.total_datasets - sumValues r2.count_by_year
        = r.total_datasets - sumValues r.count_by_year
          + (unmatchedIn F (pats.flatMap L) : Int) := by
  intro pats
  induction pats with
  | nil =>
    intro r r2 h
    simp only [foldPatterns] at h
    cases h
    simp [unmatchedIn]
  | cons p rest ih =>
    intro r r2 h
    simp only [foldPatterns] at h
    cases hd : foldDatasets F r (L p) with
    | error e =>
      rw [hd] at h
      exact absurd h (by simp)
    | ok r3 =>
      rw [hd] at h
      simp only at h
      have h1 := foldDatasets_delta F (L p) r r3 hd
      have h2 := ih r3 r2 h
      rw [List.flatMap_cons, unmatchedIn_append]
      push_cast at h1 h2 ⊢
      omega

/-- C3: for every run with a lister and fetcher held fixed, the returned
aggregate satisfies `total_datasets = sum(count_by_year.values()) + u`,
where `u` is the number of counted datasets whose name contains none of
`'Run2022'`, `'Run2023'`, `'Run2024'`: a dataset matching no year token is
added to the group totals but to no year bucket. -/
theorem process_datasets_total_eq_sum_counts_plus_unmatched
    (L : String → List String) (F : String → FetchResult) (g : String)
    (pats : List String) (r : Results)
    (h : process_datasets (fun p => .ok (L p)) F g pats = .ok r) :
    r.total_datasets = sumValues r.count_by_year + (unmatchedCount L F pats : Int) := by
  have hd := foldPatterns_delta L F pats initResults r h
  have h1 : initResults.total_datasets = 0 := rfl
  have h2 : sumValues initResults.count_by_year = 0 := rfl
  rw [h1, h2] at hd
  rw [unmatchedCount]
  omega

/-- Witness for C3: one counted dataset in the 2022 bucket and one counted
dataset matching no year token. -/
theorem process_datasets_total_eq_sum_counts_plus_unmatched_witness :
    ({ total_datasets := 2, total_size := 20, total_events := 2,
       size_by_year := [("2022", 10)], count_by_year := [("2022", 1)] } : Results).total_datasets
      = sumValues [("2022", (1 : Int))]
        + (unmatchedCount (fun _ => ["/A/Run2022X/ALCARECO", "/NoYear/X"])
            (fun _ => .pair (some 10) (some 1)) ["/p"] : Int) :=
  process_datasets_total_eq_sum_counts_plus_unmatched
    (fun _ => ["/A/Run2022X/ALCARECO", "/NoYear/X"])
    (fun _ => .pair (some 10) (some 1)) "G" ["/p"] _ rfl

/-! ## Missing-year preservation -/

theorem foldDataset_missing_year (r : Results) (d : String) (s e : Int) (y : String)
    (hy : y = "2022" ∨ y = "2023" ∨ y = "2024")
    (hd : containsStr d ("Run" ++ y) = false) :
    hasKey (foldDataset r d s e).count_by_year y = hasKey r.count_by_year y
    ∧ dget (foldDataset r d s e).count_by_year y = dget r.count_by_year y
    ∧ hasKey (foldDataset r d s e).size_by_year y = hasKey r.size_by_year y
    ∧ dget (foldDataset r d s e).size_by_year y = dget r.size_by_year y := by
  rcases hy with hy | hy | hy <;> subst hy
  · have he : ("Run" ++ "2022" : String) = "Run2022" := rfl
    rw [he] at hd
    cases h2 : containsStr d "Run2023" with
    | true =>
      have hne : ("2023" : String) ≠ "2022" := by decide
      simp [foldDataset, hd, h2, hasKey_dadd_ne _ _ _ _ hne, dget_dadd_ne _ _ _ _ hne]
    | false =>
      cases h3 : containsStr d "Run2024" with
      | true =>
        have hne : ("2024" : String) ≠ "2022" := by decide
        simp [foldDataset, hd, h2, h3, hasKey_dadd_ne _ _ _ _ hne, dget_dadd_ne _ _ _ _ hne]
      | false =>
        simp [foldDataset, hd, h2, h3]
  · have he : ("Run" ++ "2023" : String) = "Run2023" := rfl
    rw [he] at hd
    cases h1 : containsStr d "Run2022" with
    | true =>
      have hne : ("2022" : String) ≠ "2023" := by decide
      simp [foldDataset, h1, hasKey_dadd_ne _ _ _ _ hne, dget_dadd_ne _ _ _ _ hne]
    | false =>
      cases h3 : containsStr d "Run2024" with
      | true =>
        have hne : ("2024" : String) ≠ "2023" := by decide
        simp [foldDataset, h1, hd, h3, hasKey_dadd_ne _ _ _ _ hne, dget_dadd_ne _ _ _ _ hne]
      | false =>
        simp [foldDataset, h1, hd, h3]
  · have he : ("Run" ++ "2024" : String) = "Run2024" := rfl
    rw [he] at hd
    cases h1 : containsStr d "Run2022" with
    | true =>
      have hne : ("2022" : String) ≠ "2024" := by decide
      simp [foldDataset, h1, hasKey_dadd_ne _ _ _ _ hne, dget_dadd_ne _ _ _ _ hne]
    | false =>
      cases h2 : containsStr d "Run2023" with
      | true =>
        have hne : ("2023" : String) ≠ "2024" := by decide
        simp [foldDataset, h1, h2, hasKey_dadd_ne _ _ _ _ hne, dget_dadd_ne _ _ _ _ hne]
      | false =>
        simp [foldDataset, h1, h2, hd]

theorem foldDatasets_missing_year (F : String → FetchResult) (y : String)
    (hy : y = "2022" ∨ y = "2023" ∨ y = "2024") :
    ∀ (ds : List String) (r r2 : Results), foldDatasets F r ds = .ok r2 →
      (∀ d ∈ ds, isCounted F d = true → containsStr d ("Run" ++ y) = false) →
      hasKey r2.count_by_year y = hasKey r.count_by_year y
      ∧ dget r2.count_by_year y = dget r.count_by_year y
      ∧ hasKey r2.size_by_year y = hasKey r.size_by_year y
      ∧ dget r2.size_by_year y = dget r.size_by_year y := by
  intro ds
  induction ds with
  | nil =>
    intro r r2 h hnone
    simp only [foldDatasets] at h
    cases h
    exact ⟨rfl, rfl, rfl, rfl⟩
  | cons d rest ih =>
    intro r r2 h hnone
    simp only [foldDatasets] at h
    cases hs : stepDataset F r d with
    | error e =>
      rw [hs] at h
      exact absurd h (by simp)
    | ok r3 =>
      rw [hs] at h
      simp only at h
      have hrest := ih r3 r2 h (fun d2 hmem hc => hnone d2 (List.mem_cons_of_mem _ hmem) hc)
      unfold stepDataset at hs
      cases hF : F d with
      | bare =>
        rw [hF] at hs
        exact absurd hs (by simp)
      | pair os oe =>
        rw [hF] at hs
        cases os with
        | none =>
          simp only at hs
          cases hs
          exact hrest
        | some s =>
          cases oe with
          | none =>
            simp only at hs
            cases hs
            exact hrest
          | some e =>
            simp only at hs
            cases hs
            have hc : isCounted F d = true := by simp [isCounted, hF]
            have hdy := hnone d (List.mem_cons_self _ _) hc
            have hstep := foldDataset_missing_year r d s e y hy hdy
            exact ⟨hrest.1.trans hstep.1, hrest.2.1.trans hstep.2.1,
              hrest.2.2.1.trans hstep.2.2.1, hrest.2.2.2.trans hstep.2.2.2⟩

theorem foldPatterns_missing_year (L : String → List String) (F : String → FetchResult)
    (y : String) (hy : y = "2022" ∨ y = "2023" ∨ y = "2024") :
    ∀ (pats : List String) (r r2 : Results),
      foldPatterns (fun p => .ok (L p)) F r pats = .ok r2 →
      (∀ p ∈ pats, ∀ d ∈ L p, isCounted F d = true → containsStr d ("Run" ++ y) = false) →
      hasKey r2.count_by_year y = hasKey r.count_by_year y
      ∧ dget r2.count_by_year y = dget r.count_by_year y
      ∧ hasKey r2.size_by_year y = hasKey r.size_by_year y
      ∧ dget r2.size_by_year y = dget r.size_by_year y := by
  intro pats
  induction pats with
  | nil =>
    intro r r2 h hnone
    simp only [foldPatterns] at h
    cases h
    exact ⟨rfl, rfl, rfl, rfl⟩
  | cons p rest ih =>
    intro r r2 h hnone
    simp only [foldPatterns] at h
    cases hd : foldDatasets F r (L p) with
    | error e =>
      rw [hd] at h
      exact absurd h (by simp)
    | ok r3 =>
      rw [hd] at h
      simp only at h
      have h1 := foldDatasets_missing_year F y hy (L p) r r3 hd
        (fun d2 hmem hc => hnone p (List.mem_cons_self _ _) d2 hmem hc)
      have h2 := ih r3 r2 h
        (fun p2 hmem d2 hd2 hc => hnone p2 (List.mem_cons_of_mem _ hmem) d2 hd2 hc)
      exact ⟨h2.1.trans h1.1, h2.2.1.trans h1.2.1,
        h2.2.2.1.trans h1.2.2.1, h2.2.2.2.trans h1.2.2.2⟩

/-- C10: for a run in which no counted dataset carries the token of one of
the recognized years, the aggregate's two year maps do not contain that
year's key at all, yet the Reporter's reads of them — which go through
`defaultdict(int)` item lookup — yield dataset count `0` and size `0` TB
rather than failing on the missing key. -/
theorem reporter_missing_year_reads_zero
    (L : String → List String) (F : String → FetchResult) (g : String)
    (pats : List String) (r : Results) (y : String)
    (hy : y = "2022" ∨ y = "2023" ∨ y = "2024")
    (hnone : ∀ p ∈ pats, ∀ d ∈ L p, isCounted F d = true →
      containsStr d ("Run" ++ y) = false)
    (h : process_datasets (fun p => .ok (L p)) F g pats = .ok r) :
    hasKey r.count_by_year y = false ∧ hasKey r.size_by_year y = false
    ∧ report_year_values r y = (0, 0) := by
  have hm := foldPatterns_missing_year L F y hy pats initResults r h hnone
  refine ⟨hm.1, hm.2.2.1, ?_⟩
  have hcnt : dget r.count_by_year y = 0 := hm.2.1
  have hsz : dget r.size_by_year y = 0 := hm.2.2.2
  simp [report_year_values, hcnt, hsz]

/-- Witness for C10: a group whose only counted dataset is from 2022,
queried for the year `"2023"`. -/
theorem reporter_missing_year_reads_zero_witness :
    hasKey [("2022", (1 : Int))] "2023" = false
    ∧ hasKey [("2022", (4 : Int))] "2023" = false
    ∧ report_year_values
        { total_datasets := 1, total_size := 4, total_events := 2,
          size_by_year := [("2022", 4)], count_by_year := [("2022", 1)] } "2023" = (0, 0) :=
  reporter_missing_year_reads_zero (fun _ => ["/A/Run2022X/ALCARECO"])
    (fun _ => .pair (some 4) (some 2)) "G" ["/p"] _ "2023"
    (Or.inr (Or.inl rfl))
    (by decide)
    rfl
